import Mathlib

/-!
Verification of the Iridescence shader background engine
(`src/Iridescence.js`), a zero-dependency WebGL component.

JavaScript numbers are modelled as rationals (`ℚ`).  For most of the
claims every number involved is exactly representable in IEEE binary64
and every operation exact, so the rational model coincides with the
program.  The one exception is the blend-factor accumulation
`this.colorLerp += this.cycleSpeed`: 0.0025 is not a dyadic rational,
so the double additions round.  For the claim about the exact frame
count of a palette transition we therefore also embed that
accumulation faithfully, as fixed-point arithmetic at scale `2^61`
with IEEE round-to-nearest-even after each addition (`round53`,
`fpAdd61`, `animateStepFP` below); the exact-rational cycle model is
kept for the structural invariants, which are insensitive to the
rounding (the comparison `>= 1.0`, the reset to 0 and the index
arithmetic are exact in binary64).
Strings are Lean `String`s.  The DOM/WebGL collaborator surface
(canvas, GL context, event listeners) is modelled by explicit
parameters (`glAvailable`, event lists) and by recording the observable
effects of the constructor (reported errors, whether `init`/the frame
loop ran, whether a mousemove observer was registered).
-/

set_option autoImplicit false

namespace Iridescence

/-- An RGB triplet of normalized channels, as produced by `hexToRgb`
and consumed by the shader uniform `uColor` (JS arrays `[r, g, b]`). -/
structure RGB where
  r : ℚ
  g : ℚ
  b : ℚ
deriving DecidableEq, Repr

/-! ## ColorSpace: `hexToRgb` (src/Iridescence.js lines 50-56)

`hexToRgb(hex)` computes `parseInt(hex.replace('#', ''), 16)`, then
extracts bytes with `>> 16 & 255`, `>> 8 & 255`, `& 255` and divides by
255.  We embed the JavaScript semantics of each step:
`String.prototype.replace` with a string pattern replaces only the
first occurrence; `parseInt(s, 16)` skips leading whitespace, accepts
an optional sign and an optional `0x`/`0X` prefix, parses the longest
prefix of hex digits and yields `NaN` (modelled `none`) when there is
none; the bitwise operators coerce their operand with `ToInt32`
(`NaN ↦ 0`, otherwise reduction mod 2^32 into `[-2^31, 2^31)`); for a
nonnegative mask, `x >> n & 255` is floor division then mod 256. -/

/-- JS `hex.replace('#', '')`: remove the first `'#'` only. -/
def replaceFirstHash : List Char → List Char
  | [] => []
  | c :: cs => if c = '#' then cs else c :: replaceFirstHash cs

/-- Value of a hexadecimal digit character, `none` for a non-digit. -/
def hexDigitVal (c : Char) : Option Nat :=
  if '0' ≤ c ∧ c ≤ '9' then some (c.toNat - '0'.toNat)
  else if 'a' ≤ c ∧ c ≤ 'f' then some (c.toNat - 'a'.toNat + 10)
  else if 'A' ≤ c ∧ c ≤ 'F' then some (c.toNat - 'A'.toNat + 10)
  else none

/-- The longest leading run of hex digits, as digit values. -/
def leadingHexDigits : List Char → List Nat
  | [] => []
  | c :: cs =>
    match hexDigitVal c with
    | some d => d :: leadingHexDigits cs
    | none => []

/-- Numeric value of a big-endian base-16 digit list. -/
def hexVal (ds : List Nat) : Nat := ds.foldl (fun a d => 16 * a + d) 0

/-- The whitespace characters `parseInt` skips (the common ones). -/
def isJsWhitespace (c : Char) : Bool :=
  c = ' ' ∨ c = '\t' ∨ c = '\n' ∨ c = '\r' ∨ c = '\x0b' ∨ c = '\x0c'

/-- JS `parseInt(s, 16)`: skip whitespace, optional sign, optional
`0x`/`0X` prefix, longest hex-digit prefix; `none` models `NaN`. -/
def parseIntHex (s : List Char) : Option Int :=
  let s1 := s.dropWhile (fun c => isJsWhitespace c)
  let signAndRest : Int × List Char :=
    match s1 with
    | '-' :: rest => (-1, rest)
    | '+' :: rest => (1, rest)
    | _ => (1, s1)
  let s3 : List Char :=
    match signAndRest.2 with
    | '0' :: 'x' :: rest => rest
    | '0' :: 'X' :: rest => rest
    | rest => rest
  let ds := leadingHexDigits s3
  if ds.isEmpty then none else some (signAndRest.1 * (hexVal ds : Int))

/-- JS `ToInt32` applied to a possibly-`NaN` number: `NaN ↦ 0`,
otherwise reduce mod 2^32 into `[-2^31, 2^31)`. -/
def toInt32 : Option Int → Int
  | none => 0
  | some v =>
    let m := v % (4294967296 : Int)
    if m < 2147483648 then m else m - 4294967296

/-- The `bigint` local of `hexToRgb`:
`parseInt(hex.replace('#', ''), 16)` coerced by the bitwise operators'
`ToInt32`. -/
def hexBigint (hex : String) : Int :=
  toInt32 (parseIntHex (replaceFirstHash hex.toList))

/-- `hexToRgb` (src/Iridescence.js lines 50-56).  For the bit
extraction: `bigint >> 16 & 255 = bigint / 2^16 % 256` (signed shift is
floor division; masking with 255 is mod 256 on two's complement;
Lean's `Int` `/` and `%` are floor-like for this positive divisor). -/
def hexToRgb (hex : String) : RGB :=
  let bigint := hexBigint hex
  let r := bigint / 65536 % 256
  let g := bigint / 256 % 256
  let b := bigint % 256
  ⟨(r : ℚ) / 255, (g : ℚ) / 255, (b : ℚ) / 255⟩

/-! ## PaletteCycler: the palette-cycling step of `animate`
(src/Iridescence.js lines 27-31 and 182-202)

The fields of the `Iridescence` object that the palette block of
`animate()` reads and writes are `this.color`, `this.colorIndex`,
`this.colorNextIndex` and `this.colorLerp`; we collect exactly those
into a state record.  `this.cycleSpeed` is set once in the constructor
and never written again, so it is a constant here. -/

/-- The mutable palette-cycling state: `this.color`,
`this.colorIndex`, `this.colorNextIndex`, `this.colorLerp`. -/
structure EngineState where
  color : RGB
  colorIndex : ℕ
  colorNextIndex : ℕ
  colorLerp : ℚ
deriving DecidableEq, Repr

/-- `this.cycleSpeed = 0.0025` (src/Iridescence.js line 31). -/
def cycleSpeed : ℚ := 0.0025

/-- `lerp(start, end, amt) = (1 - amt) * start + amt * end`
(src/Iridescence.js lines 178-180). -/
def lerp (start end_ amt : ℚ) : ℚ := (1 - amt) * start + amt * end_

/-- The state set up by the constructor (src/Iridescence.js lines
24-31): `colorIndex = 0`, `colorNextIndex = 1`, `colorLerp = 0`, and
`this.color` holding the configured base color. -/
def initCycleState (c : RGB) : EngineState :=
  { color := c, colorIndex := 0, colorNextIndex := 1, colorLerp := 0 }

/-- The palette-cycling block of `animate()` (src/Iridescence.js lines
186-202).  Guarded by `this.palette && this.palette.length > 1`; for a
`null` palette the guard is false, so a plain list with the length
test models it (the `Option` lives in `Config.palette` below).  Inside
the guard: `colorLerp += cycleSpeed`; on `colorLerp >= 1.0` reset to 0
and advance both indices mod the palette length; then interpolate
per channel between `palette[colorIndex]` and
`palette[colorNextIndex]` (in-range by the cycle invariant; `getD`
supplies a dummy for the out-of-range case JavaScript would crash on).
This version idealizes the `+=` as exact rational addition; it is used
for the structural invariants only, which hold equally of the rounded
binary64 accumulation (see `animateStepFP` for the faithful model of
the accumulator, needed for frame-count claims). -/
def animateStep (palette : List RGB) (s : EngineState) : EngineState :=
  if 1 < palette.length then
    let lerp1 := s.colorLerp + cycleSpeed
    let wrapped : ℚ × ℕ × ℕ :=
      if 1 ≤ lerp1 then
        let i := (s.colorIndex + 1) % palette.length
        (0, i, (i + 1) % palette.length)
      else
        (lerp1, s.colorIndex, s.colorNextIndex)
    let c1 := palette.getD wrapped.2.1 ⟨0, 0, 0⟩
    let c2 := palette.getD wrapped.2.2 ⟨0, 0, 0⟩
    { color :=
      ⟨lerp c1.r c2.r wrapped.1, lerp c1.g c2.g wrapped.1, lerp c1.b c2.b wrapped.1⟩,
      colorIndex := wrapped.2.1,
      colorNextIndex := wrapped.2.2,
      colorLerp := wrapped.1 }
  else s

/-- The cycle state after `k` frames (`k` calls of the `animate` body)
starting from the constructor's state. -/
def advanceN (palette : List RGB) (c : RGB) (k : ℕ) : EngineState :=
  (animateStep palette)^[k] (initCycleState c)

/-- The palette-cycle invariant claimed by the spec:
`nextIndex == (currentIndex + 1) mod paletteLength`. -/
def cycleInvariant (n : ℕ) (s : EngineState) : Prop :=
  s.colorNextIndex = (s.colorIndex + 1) % n

/-! ## Constructor and configuration (src/Iridescence.js lines 7-48)

The constructor's option handling uses JavaScript `||`-defaulting
(`options.color || [0.5, 0.6, 0.8]`, `options.speed || 1.0`,
`options.amplitude || 0.1`, `options.colors || null`) and a
ternary for `mouseReact`.  An absent option is `none`; `0` is falsy,
so `some 0` also selects the numeric default; an empty string is
falsy; arrays (including the empty array) are truthy.  The WebGL
context acquisition is the one external input (`glAvailable`); when it
fails the constructor logs `'WebGL not supported'` and returns early,
otherwise it calls `init()`, which unconditionally reaches
`animate()` and so starts the frame loop, and registers the
`mousemove` observer exactly when `mouseReact` is set. -/

/-- A color option value: either a hex string or an RGB triplet
(JavaScript accepts both shapes). -/
inductive ColorSpec where
  | hex (s : String)
  | rgb (c : RGB)
deriving DecidableEq, Repr

/-- `typeof c === 'string' ? this.hexToRgb(c) : c`
(src/Iridescence.js lines 17 and 20-22). -/
def resolveColor : ColorSpec → RGB
  | ColorSpec.hex s => hexToRgb s
  | ColorSpec.rgb c => c

/-- JS `x || d` for a color-shaped option: `undefined` and the empty
string are falsy, every other string and every array is truthy. -/
def jsOrColor : Option ColorSpec → ColorSpec → ColorSpec
  | none, d => d
  | some (ColorSpec.hex s), d => if s = "" then d else ColorSpec.hex s
  | some (ColorSpec.rgb c), _ => ColorSpec.rgb c

/-- JS `x || d` for a numeric option: `undefined` and `0` are falsy. -/
def jsOrNum : Option ℚ → ℚ → ℚ
  | none, d => d
  | some x, d => if x = 0 then d else x

/-- `options.mouseReact !== undefined ? options.mouseReact : true`
(src/Iridescence.js line 13). -/
def mouseReactOf : Option Bool → Bool
  | none => true
  | some b => b

/-- The constructor's `options` argument: every field optional. -/
structure Options where
  color : Option ColorSpec := none
  colors : Option (List ColorSpec) := none
  speed : Option ℚ := none
  amplitude : Option ℚ := none
  mouseReact : Option Bool := none
deriving Repr

/-- The observable result of running the constructor: the configured
fields, the `console.error` messages it reported, whether `init()` ran
(which starts the frame loop by calling `animate()`), and whether a
`mousemove` observer was registered. -/
structure Config where
  color : RGB
  palette : Option (List RGB)
  speed : ℚ
  amplitude : ℚ
  mouseReact : Bool
  mousePos : ℚ × ℚ
  uTime : ℚ
  colorIndex : ℕ
  colorNextIndex : ℕ
  colorLerp : ℚ
  errors : List String
  initCalled : Bool
  mouseObserverRegistered : Bool
deriving Repr

/-- The constructor (src/Iridescence.js lines 7-48).  The palette is
mapped through `resolveColor` only under the guard
`this.palette && this.palette.length > 0`; the unmapped case is the
empty array, which we return as the empty list of colors.  Shader
compilation is modelled as succeeding (the shader sources are fixed
string constants), and `init()` calls `animate()` unconditionally, so
the frame loop starts exactly when a GL context was obtained. -/
def construct (options : Options) (glAvailable : Bool) : Config :=
  let color0 := jsOrColor options.color (ColorSpec.rgb ⟨0.5, 0.6, 0.8⟩)
  let palette : Option (List RGB) :=
    match options.colors with
    | none => none
    | some l => if 0 < l.length then some (l.map resolveColor) else some []
  { color := resolveColor color0
    palette := palette
    speed := jsOrNum options.speed 1.0
    amplitude := jsOrNum options.amplitude 0.1
    mouseReact := mouseReactOf options.mouseReact
    mousePos := (0.5, 0.5)
    uTime := 0
    colorIndex := 0
    colorNextIndex := 1
    colorLerp := 0
    errors := if glAvailable then [] else ["WebGL not supported"]
    initCalled := glAvailable
    mouseObserverRegistered := glAvailable && mouseReactOf options.mouseReact }

/-! ## PointerTracker (src/Iridescence.js lines 24 and 62-68)

`init()` adds a `mousemove` listener only when `this.mouseReact` is
set; the listener maps the event's client coordinates through the
canvas's bounding rectangle. -/

/-- A DOM bounding client rectangle. -/
structure Rect where
  left : ℚ
  top : ℚ
  width : ℚ
  height : ℚ
deriving DecidableEq, Repr

/-- A `mousemove` event: client coordinates, plus the bounding
rectangle the canvas reports when the listener runs. -/
structure MouseEvent where
  clientX : ℚ
  clientY : ℚ
  rect : Rect
deriving DecidableEq, Repr

/-- The `mousemove` listener body (src/Iridescence.js lines 63-67):
`mousePos.x = (clientX - left) / width`,
`mousePos.y = 1 - (clientY - top) / height`. -/
def mouseMoveHandler (rect : Rect) (clientX clientY : ℚ) : ℚ × ℚ :=
  ((clientX - rect.left) / rect.width, 1 - (clientY - rect.top) / rect.height)

/-- One delivered pointer event: the handler runs only when the
listener was registered, i.e. when `mouseReact` is set. -/
def processMouseEvent (mouseReact : Bool) (e : MouseEvent) (pos : ℚ × ℚ) : ℚ × ℚ :=
  if mouseReact then mouseMoveHandler e.rect e.clientX e.clientY else pos

/-- The pointer state after a sequence of `mousemove` events. -/
def runEvents (mouseReact : Bool) (events : List MouseEvent) (pos : ℚ × ℚ) : ℚ × ℚ :=
  events.foldl (fun p e => processMouseEvent mouseReact e p) pos

/-! ## SurfaceSizer: `resize` (src/Iridescence.js lines 166-176)

`resize()` computes `this.container.offsetWidth * pixelRatio` (and
likewise for the height) and assigns it to `canvas.width` /
`canvas.height`.  `offsetWidth`/`offsetHeight` are integers;
`window.devicePixelRatio || 1` treats a falsy (0 / undefined) density
as 1.  The assignment to the canvas's `unsigned long` attributes
converts per WebIDL: truncate toward zero, then reduce mod 2^32. -/

/-- WebIDL `unsigned long` conversion of a number: truncation toward
zero, then reduction mod 2^32. -/
def canvasDim (x : ℚ) : ℕ :=
  ((if 0 ≤ x then ⌊x⌋ else ⌈x⌉) % (4294967296 : ℤ)).toNat

/-- `resize()` as a function of the container's layout size and the
device pixel density; returns the backing-buffer size
`(canvas.width, canvas.height)`. -/
def resize (offsetWidth offsetHeight : ℕ) (dpr : ℚ) : ℕ × ℕ :=
  let pixelDensity := if dpr = 0 then 1 else dpr
  (canvasDim ((offsetWidth : ℚ) * pixelDensity),
   canvasDim ((offsetHeight : ℚ) * pixelDensity))

/-- Modelled from the spec: the spec's words for SurfaceSizer,
`computeBackingSize(containerLayoutSize, devicePixelDensity)`
`= layoutSize * devicePixelDensity` per axis, "rounded to integer
pixels" — rounding to the nearest integer. -/
def computeBackingSizeSpec (offsetWidth offsetHeight : ℕ) (dpr : ℚ) : ℕ × ℕ :=
  ((round ((offsetWidth : ℚ) * dpr)).toNat, (round ((offsetHeight : ℚ) * dpr)).toNat)

/-! ## The blend accumulation in IEEE binary64

`this.colorLerp += this.cycleSpeed` runs on binary64 doubles, and
0.0025 is not dyadic: its nearest double is
`5764607523034235 / 2^61 ≈ 0.0025000000000000001`, and each `+=`
rounds the exact sum to 53 significand bits (round to nearest, ties
to even).  Every double the accumulator can reach lies in `[0, 2)`
and is an integer multiple of `2^-61` (the ulp of the starting binade
`[2^-9, 2^-8)`; coarser binades only drop low bits), so we represent
the accumulator exactly as a natural number at fixed scale `2^61` and
perform the IEEE addition as: exact integer sum, then rounding of the
result to its top 53 significand bits. -/

/-- Number of binary digits of `n` (0 for 0), with explicit fuel so
the kernel can evaluate it; fuel 64 covers every value reachable at
scale `2^61` here (all are below `2^62`). -/
def bits : ℕ → ℕ → ℕ
  | 0, _ => 0
  | fuel + 1, n => if n = 0 then 0 else bits fuel (n / 2) + 1

/-- IEEE round-to-nearest-even of the value `n / 2^61` to a binary64
significand, returned at the same scale: if `n` has at most 53 bits
it is exactly representable; otherwise keep the top 53 bits, rounding
the remainder to nearest with ties to the even significand.  (Correct
for the values arising here: positive, far from the subnormal and
overflow ranges, below `2^62`.) -/
def round53 (n : ℕ) : ℕ :=
  let b := bits 64 n
  if b ≤ 53 then n
  else
    let p := 2 ^ (b - 53)
    let q := n / p
    let r := n % p
    if r < p / 2 then q * p
    else if p / 2 < r then (q + 1) * p
    else (if q % 2 = 0 then q else q + 1) * p

/-- Nearest integer to `a / b`, ties to even — the rounding used to
convert the decimal literal `0.0025` to its binary64 value. -/
def nearestInt (a b : ℕ) : ℕ :=
  let q := a / b
  let r := a % b
  if 2 * r < b then q
  else if b < 2 * r then q + 1
  else if q % 2 = 0 then q else q + 1

/-- The binary64 value of the literal `0.0025`
(src/Iridescence.js line 31) at scale `2^61`: `0.0025 ∈ [2^-9, 2^-8)`,
so its double is the nearest multiple of `2^-61`, i.e. the nearest
integer to `2^61 / 400` (this is `5764607523034235`, slightly above
the exact `2^61/400 = 5764607523034234.88`). -/
def cycleSpeedFP61 : ℕ := nearestInt (2 ^ 61) 400

/-- One binary64 `colorLerp += cycleSpeed` at scale `2^61`: exact
integer sum, then one IEEE rounding. -/
def fpAdd61 (x : ℕ) : ℕ := round53 (x + cycleSpeedFP61)

/-- The index/blend projection of the cycle state, with the blend
accumulator held as a binary64 double at scale `2^61`.  (The
interpolated output color reads these fields but feeds nothing back
into them, so it is omitted from this projection.) -/
structure EngineStateFP where
  colorIndex : ℕ
  colorNextIndex : ℕ
  colorLerp61 : ℕ
deriving DecidableEq, Repr

/-- The blend factor denoted by an FP cycle state, as a rational. -/
def blendFactorFP (s : EngineStateFP) : ℚ := (s.colorLerp61 : ℚ) / 2 ^ 61

/-- The constructor's cycle fields: `colorIndex = 0`,
`colorNextIndex = 1`, `colorLerp = 0`. -/
def initCycleStateFP : EngineStateFP := ⟨0, 1, 0⟩

/-- The palette-cycling block of `animate()` (src/Iridescence.js lines
186-192) on the FP state, for a palette of length `n`: add the cycle
speed in binary64; on `colorLerp >= 1.0` (exactly `2^61 ≤` the scaled
accumulator: the comparison of doubles is exact) reset to 0 and
advance both indices mod `n`. -/
def animateStepFP (n : ℕ) (s : EngineStateFP) : EngineStateFP :=
  if 1 < n then
    let lerp1 := fpAdd61 s.colorLerp61
    if 2 ^ 61 ≤ lerp1 then
      let i := (s.colorIndex + 1) % n
      ⟨i, (i + 1) % n, 0⟩
    else ⟨s.colorIndex, s.colorNextIndex, lerp1⟩
  else s

/-- The FP cycle state after `k` frames for a palette of length `n`. -/
def advanceFPN (n k : ℕ) : EngineStateFP :=
  (animateStepFP n)^[k] initCycleStateFP

/-- `checkRun k x = true` iff none of the next `k` binary64 additions
starting from accumulator `x` reaches `1.0` (scaled: `2^61`). -/
def checkRun : ℕ → ℕ → Bool
  | 0, _ => true
  | k + 1, x =>
    let y := fpAdd61 x
    if y < 2 ^ 61 then checkRun k y else false

/-! ## Helper lemmas on the palette cycle -/

/-- Unfolding of `animateStep` in the wrapping case. -/
lemma animateStep_wrap (palette : List RGB) (s : EngineState)
    (hn : 2 ≤ palette.length) (h : 1 ≤ s.colorLerp + cycleSpeed) :
    (animateStep palette s).colorLerp = 0 ∧
    (animateStep palette s).colorIndex = (s.colorIndex + 1) % palette.length ∧
    (animateStep palette s).colorNextIndex
      = ((s.colorIndex + 1) % palette.length + 1) % palette.length := by
  have hl : 1 < palette.length := by omega
  simp [animateStep, hl, h]

/-- Unfolding of `animateStep` in the non-wrapping case. -/
lemma animateStep_nowrap (palette : List RGB) (s : EngineState)
    (hn : 2 ≤ palette.length) (h : s.colorLerp + cycleSpeed < 1) :
    (animateStep palette s).colorLerp = s.colorLerp + cycleSpeed ∧
    (animateStep palette s).colorIndex = s.colorIndex ∧
    (animateStep palette s).colorNextIndex = s.colorNextIndex := by
  have hl : 1 < palette.length := by omega
  have h' : ¬ (1 : ℚ) ≤ s.colorLerp + cycleSpeed := not_le.mpr h
  simp [animateStep, hl, h']

/-- The well-formedness predicate maintained by the cycle: the index
invariant plus `colorLerp ∈ [0, 1)`. -/
def goodCycle (n : ℕ) (s : EngineState) : Prop :=
  s.colorNextIndex = (s.colorIndex + 1) % n ∧ 0 ≤ s.colorLerp ∧ s.colorLerp < 1

lemma cycleSpeed_pos : (0 : ℚ) < cycleSpeed := by norm_num [cycleSpeed]

lemma goodCycle_init (n : ℕ) (hn : 2 ≤ n) (c : RGB) :
    goodCycle n (initCycleState c) := by
  refine ⟨?_, le_refl 0, one_pos⟩
  simp [initCycleState, Nat.mod_eq_of_lt (show 1 < n by omega)]

lemma goodCycle_step (palette : List RGB) (s : EngineState)
    (hn : 2 ≤ palette.length) (h : goodCycle palette.length s) :
    goodCycle palette.length (animateStep palette s) := by
  rcases le_or_lt (1 : ℚ) (s.colorLerp + cycleSpeed) with hw | hw
  · obtain ⟨h1, h2, h3⟩ := animateStep_wrap palette s hn hw
    exact ⟨by rw [h3, h2], by rw [h1], by rw [h1]; exact one_pos⟩
  · obtain ⟨h1, h2, h3⟩ := animateStep_nowrap palette s hn hw
    refine ⟨by rw [h3, h2]; exact h.1, ?_, by rw [h1]; exact hw⟩
    rw [h1]
    have := cycleSpeed_pos
    have := h.2.1
    linarith

lemma goodCycle_advanceN (palette : List RGB) (c : RGB)
    (hn : 2 ≤ palette.length) (k : ℕ) :
    goodCycle palette.length (advanceN palette c k) := by
  induction k with
  | zero => exact goodCycle_init palette.length hn c
  | succ k ih =>
    rw [advanceN, Function.iterate_succ_apply']
    exact goodCycle_step palette _ hn ih

lemma advanceN_succ (palette : List RGB) (c : RGB) (k : ℕ) :
    advanceN palette c (k + 1) = animateStep palette (advanceN palette c k) := by
  rw [advanceN, Function.iterate_succ_apply']
  rfl

/-- Closed form of the cycle state during the first traversal of the
first palette edge: before frame 400 nothing has wrapped. -/
lemma advanceN_below (palette : List RGB) (c : RGB)
    (hn : 2 ≤ palette.length) (k : ℕ) (hk : k < 400) :
    (advanceN palette c k).colorIndex = 0 ∧
    (advanceN palette c k).colorNextIndex = 1 ∧
    (advanceN palette c k).colorLerp = (k : ℚ) * cycleSpeed := by
  induction k with
  | zero => simp [advanceN, initCycleState]
  | succ k ih =>
    obtain ⟨h1, h2, h3⟩ := ih (by omega)
    have hlt : (advanceN palette c k).colorLerp + cycleSpeed < 1 := by
      rw [h3, cycleSpeed]
      have : (k : ℚ) ≤ 398 := by exact_mod_cast (show k ≤ 398 by omega)
      norm_num
      linarith
    obtain ⟨g1, g2, g3⟩ := animateStep_nowrap palette _ hn hlt
    rw [advanceN_succ]
    refine ⟨by rw [g2, h1], by rw [g3, h2], ?_⟩
    rw [g1, h3]
    push_cast
    ring

/-! ## Helper lemmas on the binary64 blend accumulation

The concrete 400-step trajectory is established by kernel evaluation
in four 100-step segments (checkpoint values of the accumulator), and
the segments are glued with `Function.iterate_add_apply`. -/

/-- Unfolding of `animateStepFP` when the incremented accumulator
stays below `1.0`. -/
lemma animateStepFP_nowrap (n : ℕ) (hn : 2 ≤ n) (s : EngineStateFP)
    (h : fpAdd61 s.colorLerp61 < 2 ^ 61) :
    animateStepFP n s = ⟨s.colorIndex, s.colorNextIndex, fpAdd61 s.colorLerp61⟩ := by
  have hl : 1 < n := by omega
  have hpow : (2 : ℕ) ^ 61 = 2305843009213693952 := by norm_num
  have h2 : ¬ 2305843009213693952 ≤ fpAdd61 s.colorLerp61 := by
    rw [← hpow]
    exact not_le.mpr h
  simp [animateStepFP, hl, h2]

/-- Unfolding of `animateStepFP` when the incremented accumulator
reaches `1.0`. -/
lemma animateStepFP_wrap (n : ℕ) (hn : 2 ≤ n) (s : EngineStateFP)
    (h : 2 ^ 61 ≤ fpAdd61 s.colorLerp61) :
    animateStepFP n s
      = ⟨(s.colorIndex + 1) % n, ((s.colorIndex + 1) % n + 1) % n, 0⟩ := by
  have hl : 1 < n := by omega
  have hpow : (2 : ℕ) ^ 61 = 2305843009213693952 := by norm_num
  have h2 : 2305843009213693952 ≤ fpAdd61 s.colorLerp61 := by
    rw [← hpow]
    exact h
  simp [animateStepFP, hl, h2]

/-- A successful `checkRun` means every intermediate accumulator
increment along the run stays below `1.0`. -/
lemma checkRun_steps (a : ℕ) : ∀ x : ℕ, checkRun a x = true →
    ∀ j, j < a → fpAdd61 (fpAdd61^[j] x) < 2 ^ 61 := by
  induction a with
  | zero =>
    intro x _ j hj
    omega
  | succ a ih =>
    intro x h j hj
    simp only [checkRun] at h
    by_cases hc : fpAdd61 x < 2 ^ 61
    · rw [if_pos hc] at h
      cases j with
      | zero => simpa using hc
      | succ j =>
        rw [Function.iterate_succ_apply]
        exact ih (fpAdd61 x) h j (by omega)
    · rw [if_neg hc] at h
      exact absurd h (by simp)

/-- While no wrap occurs, the FP cycle state keeps indices `(0, 1)`
and the accumulator follows the iterated binary64 addition. -/
lemma advanceFP_seg (n : ℕ) (hn : 2 ≤ n) (x a : ℕ)
    (hrun : checkRun a x = true) :
    ∀ k, k ≤ a →
      (animateStepFP n)^[k] ⟨0, 1, x⟩ = ⟨0, 1, fpAdd61^[k] x⟩ := by
  intro k
  induction k with
  | zero => intro _; rfl
  | succ k ih =>
    intro hk
    rw [Function.iterate_succ_apply', Function.iterate_succ_apply',
      ih (by omega)]
    exact animateStepFP_nowrap n hn ⟨0, 1, fpAdd61^[k] x⟩
      (checkRun_steps a x hrun k (by omega))

set_option maxRecDepth 40000 in
/-- The concrete binary64 trajectory: after 400 frames the
accumulator holds `2305843009213670144 / 2^61 = 0.9999999999999897…`,
strictly below `1.0`, with the indices still `(0, 1)`; the 401st
frame wraps. -/
lemma advanceFPN_400 (n : ℕ) (hn : 2 ≤ n) :
    advanceFPN n 400 = ⟨0, 1, 2305843009213670144⟩ ∧
    advanceFPN n 401 = ⟨1 % n, (1 % n + 1) % n, 0⟩ := by
  have e1 : fpAdd61^[100] 0 = 576460752303423872 := by decide
  have e2 : fpAdd61^[100] 576460752303423872 = 1152921504606847744 := by decide
  have e3 : fpAdd61^[100] 1152921504606847744 = 1729382256910258944 := by decide
  have e4 : fpAdd61^[100] 1729382256910258944 = 2305843009213670144 := by decide
  have c1 : checkRun 100 0 = true := by decide
  have c2 : checkRun 100 576460752303423872 = true := by decide
  have c3 : checkRun 100 1152921504606847744 = true := by decide
  have c4 : checkRun 100 1729382256910258944 = true := by decide
  have s1 : (animateStepFP n)^[100] initCycleStateFP
      = ⟨0, 1, 576460752303423872⟩ := by
    have h := advanceFP_seg n hn 0 100 c1 100 le_rfl
    rw [e1] at h
    exact h
  have s2 : (animateStepFP n)^[100] ⟨0, 1, 576460752303423872⟩
      = ⟨0, 1, 1152921504606847744⟩ := by
    have h := advanceFP_seg n hn 576460752303423872 100 c2 100 le_rfl
    rw [e2] at h
    exact h
  have s3 : (animateStepFP n)^[100] ⟨0, 1, 1152921504606847744⟩
      = ⟨0, 1, 1729382256910258944⟩ := by
    have h := advanceFP_seg n hn 1152921504606847744 100 c3 100 le_rfl
    rw [e3] at h
    exact h
  have s4 : (animateStepFP n)^[100] ⟨0, 1, 1729382256910258944⟩
      = ⟨0, 1, 2305843009213670144⟩ := by
    have h := advanceFP_seg n hn 1729382256910258944 100 c4 100 le_rfl
    rw [e4] at h
    exact h
  have h400 : advanceFPN n 400 = ⟨0, 1, 2305843009213670144⟩ := by
    rw [advanceFPN, show (400 : ℕ) = 100 + (100 + (100 + 100)) by norm_num,
      Function.iterate_add_apply, Function.iterate_add_apply,
      Function.iterate_add_apply, s1, s2, s3, s4]
  have hw : 2 ^ 61 ≤ fpAdd61 2305843009213670144 := by decide
  have h401 : advanceFPN n 401 = ⟨1 % n, (1 % n + 1) % n, 0⟩ := by
    have hs : advanceFPN n 401 = animateStepFP n (advanceFPN n 400) := by
      rw [advanceFPN, advanceFPN, Function.iterate_succ_apply']
    rw [hs, h400,
      animateStepFP_wrap n hn ⟨0, 1, 2305843009213670144⟩ hw]
  exact ⟨h400, h401⟩

/-! ## Claim theorems -/

/-- C1, counterexample: the claimed invariant
`nextIndex == (currentIndex + 1) mod paletteLength` fails at
construction already for a configured palette of length 1: the
constructor sets `colorNextIndex = 1`, but `(0 + 1) mod 1 = 0`. -/
theorem C1_counterexample :
    ¬ cycleInvariant ([⟨1, 0, 0⟩] : List RGB).length (initCycleState ⟨0, 0, 0⟩) := by
  simp [cycleInvariant, initCycleState]

/-- C1 (amended): for every configured palette of length ≥ 2, the
cycle state satisfies `nextIndex == (currentIndex + 1) mod
paletteLength` at construction and after every call of the animate
palette step, `blendFactor` stays in `[0, 1)` (it never accumulates
past the wrap point), and on each step `blendFactor` resets to 0 with
both indices advancing exactly when the incremented `blendFactor`
reaches or exceeds 1.0 (otherwise the increment is kept and the
indices are untouched). -/
theorem C1_cycle_invariant (palette : List RGB) (c : RGB)
    (hn : 2 ≤ palette.length) (k : ℕ) :
    cycleInvariant palette.length (advanceN palette c k) ∧
    0 ≤ (advanceN palette c k).colorLerp ∧
    (advanceN palette c k).colorLerp < 1 ∧
    (1 ≤ (advanceN palette c k).colorLerp + cycleSpeed →
      (advanceN palette c (k + 1)).colorLerp = 0 ∧
      (advanceN palette c (k + 1)).colorIndex
        = ((advanceN palette c k).colorIndex + 1) % palette.length) ∧
    ((advanceN palette c k).colorLerp + cycleSpeed < 1 →
      (advanceN palette c (k + 1)).colorLerp
        = (advanceN palette c k).colorLerp + cycleSpeed ∧
      (advanceN palette c (k + 1)).colorIndex = (advanceN palette c k).colorIndex ∧
      (advanceN palette c (k + 1)).colorNextIndex
        = (advanceN palette c k).colorNextIndex) := by
  obtain ⟨g1, g2, g3⟩ := goodCycle_advanceN palette c hn k
  refine ⟨g1, g2, g3, ?_, ?_⟩
  · intro hw
    obtain ⟨w1, w2, _⟩ := animateStep_wrap palette _ hn hw
    rw [advanceN_succ]
    exact ⟨w1, w2⟩
  · intro hw
    obtain ⟨w1, w2, w3⟩ := animateStep_nowrap palette _ hn hw
    rw [advanceN_succ]
    exact ⟨w1, w2, w3⟩

/-- Witness for C1 at the two-color palette, frame 0. -/
theorem C1_cycle_invariant_witness :
    2 ≤ ([⟨1, 0, 0⟩, ⟨0, 1, 0⟩] : List RGB).length ∧
    (cycleInvariant ([⟨1, 0, 0⟩, ⟨0, 1, 0⟩] : List RGB).length
        (advanceN [⟨1, 0, 0⟩, ⟨0, 1, 0⟩] ⟨0, 0, 0⟩ 0) ∧
      0 ≤ (advanceN [⟨1, 0, 0⟩, ⟨0, 1, 0⟩] ⟨0, 0, 0⟩ 0).colorLerp ∧
      (advanceN [⟨1, 0, 0⟩, ⟨0, 1, 0⟩] ⟨0, 0, 0⟩ 0).colorLerp < 1 ∧
      (1 ≤ (advanceN [⟨1, 0, 0⟩, ⟨0, 1, 0⟩] ⟨0, 0, 0⟩ 0).colorLerp + cycleSpeed →
        (advanceN [⟨1, 0, 0⟩, ⟨0, 1, 0⟩] ⟨0, 0, 0⟩ (0 + 1)).colorLerp = 0 ∧
        (advanceN [⟨1, 0, 0⟩, ⟨0, 1, 0⟩] ⟨0, 0, 0⟩ (0 + 1)).colorIndex
          = ((advanceN [⟨1, 0, 0⟩, ⟨0, 1, 0⟩] ⟨0, 0, 0⟩ 0).colorIndex + 1)
              % ([⟨1, 0, 0⟩, ⟨0, 1, 0⟩] : List RGB).length) ∧
      ((advanceN [⟨1, 0, 0⟩, ⟨0, 1, 0⟩] ⟨0, 0, 0⟩ 0).colorLerp + cycleSpeed < 1 →
        (advanceN [⟨1, 0, 0⟩, ⟨0, 1, 0⟩] ⟨0, 0, 0⟩ (0 + 1)).colorLerp
          = (advanceN [⟨1, 0, 0⟩, ⟨0, 1, 0⟩] ⟨0, 0, 0⟩ 0).colorLerp + cycleSpeed ∧
        (advanceN [⟨1, 0, 0⟩, ⟨0, 1, 0⟩] ⟨0, 0, 0⟩ (0 + 1)).colorIndex
          = (advanceN [⟨1, 0, 0⟩, ⟨0, 1, 0⟩] ⟨0, 0, 0⟩ 0).colorIndex ∧
        (advanceN [⟨1, 0, 0⟩, ⟨0, 1, 0⟩] ⟨0, 0, 0⟩ (0 + 1)).colorNextIndex
          = (advanceN [⟨1, 0, 0⟩, ⟨0, 1, 0⟩] ⟨0, 0, 0⟩ 0).colorNextIndex)) :=
  ⟨by decide, C1_cycle_invariant [⟨1, 0, 0⟩, ⟨0, 1, 0⟩] ⟨0, 0, 0⟩ (by decide) 0⟩

/-- C2, counterexample: in the program's binary64 arithmetic, after
exactly `ceil(1/r) = 400` calls the current index has NOT advanced
(it is still 0, not `(0+1) mod 2`) and the blend factor has not been
reset into `[0, r)` — the rounded accumulation of 400 additions of
`double(0.0025)` reaches only `0.9999999999999897 < 1.0`, so the wrap
fires one call later. -/
theorem C2_counterexample :
    (advanceFPN 2 400).colorIndex ≠ (0 + 1) % 2 ∧
    ¬ blendFactorFP (advanceFPN 2 400) < cycleSpeed := by
  obtain ⟨h400, _⟩ := advanceFPN_400 2 (by norm_num)
  rw [h400]
  constructor
  · decide
  · simp only [blendFactorFP]
    rw [cycleSpeed]
    norm_num

/-- C2 (amended): for every palette of length ≥ 2, with the fixed
cycle rate `r = 0.0025`, `ceil(1/r) = 400`, but under the binary64
accumulation the program actually performs the current index is still
0 after 400 calls of the animate palette step from the fresh state;
it is after exactly 401 calls that the current index has advanced by
exactly 1 (mod the palette length) and the blend factor has been
reset to 0, a value in `[0, r)`. -/
theorem C2_one_full_transition (n : ℕ) (hn : 2 ≤ n) :
    ⌈(1 : ℚ) / cycleSpeed⌉ = 400 ∧
    (advanceFPN n 400).colorIndex = 0 ∧
    (advanceFPN n 401).colorIndex = (0 + 1) % n ∧
    0 ≤ blendFactorFP (advanceFPN n 401) ∧
    blendFactorFP (advanceFPN n 401) = 0 ∧
    blendFactorFP (advanceFPN n 401) < cycleSpeed := by
  obtain ⟨h400, h401⟩ := advanceFPN_400 n hn
  have hblend : blendFactorFP (advanceFPN n 401) = 0 := by
    rw [h401]
    simp [blendFactorFP]
  refine ⟨?_, by rw [h400], by rw [h401], ?_, hblend, ?_⟩
  · rw [cycleSpeed]
    norm_num
  · rw [hblend]
  · rw [hblend]
    exact cycleSpeed_pos

/-- Witness for C2 at palette length 2. -/
theorem C2_one_full_transition_witness :
    2 ≤ 2 ∧
    (⌈(1 : ℚ) / cycleSpeed⌉ = 400 ∧
      (advanceFPN 2 400).colorIndex = 0 ∧
      (advanceFPN 2 401).colorIndex = (0 + 1) % 2 ∧
      0 ≤ blendFactorFP (advanceFPN 2 401) ∧
      blendFactorFP (advanceFPN 2 401) = 0 ∧
      blendFactorFP (advanceFPN 2 401) < cycleSpeed) :=
  ⟨by norm_num, C2_one_full_transition 2 (by norm_num)⟩

/-- C3: for a palette of length exactly 1, the animate palette step is
the identity on the whole cycle state — every call returns the same
color (the one held in `this.color`) and mutates neither
`colorIndex`, `colorNextIndex` nor `colorLerp`. -/
theorem C3_single_color_palette (palette : List RGB)
    (h : palette.length = 1) (s : EngineState) (c : RGB) (k : ℕ) :
    animateStep palette s = s ∧
    advanceN palette c k = initCycleState c ∧
    (advanceN palette c k).color = c := by
  have hstep : ∀ t : EngineState, animateStep palette t = t := by
    intro t
    simp [animateStep, h]
  have hfix : advanceN palette c k = initCycleState c :=
    Function.iterate_fixed (hstep (initCycleState c)) k
  exact ⟨hstep s, hfix, by rw [hfix]; rfl⟩

/-- Witness for C3 at a singleton palette, frame 5. -/
theorem C3_single_color_palette_witness :
    ([⟨1, 0, 0⟩] : List RGB).length = 1 ∧
    (animateStep [⟨1, 0, 0⟩] (initCycleState ⟨0, 0, 1⟩) = initCycleState ⟨0, 0, 1⟩ ∧
      advanceN [⟨1, 0, 0⟩] ⟨0, 0, 1⟩ 5 = initCycleState ⟨0, 0, 1⟩ ∧
      (advanceN [⟨1, 0, 0⟩] ⟨0, 0, 1⟩ 5).color = ⟨0, 0, 1⟩) :=
  ⟨rfl, C3_single_color_palette [⟨1, 0, 0⟩] rfl (initCycleState ⟨0, 0, 1⟩) ⟨0, 0, 1⟩ 5⟩

/-- Each extracted byte of `hexToRgb` is a residue mod 256, so each
channel lies in `[0, 1]`. -/
lemma hexChannel_bounds (v : ℤ) :
    0 ≤ ((v % 256 : ℤ) : ℚ) / 255 ∧ ((v % 256 : ℤ) : ℚ) / 255 ≤ 1 := by
  have h0 : (0 : ℤ) ≤ v % 256 := Int.emod_nonneg v (by norm_num)
  have h1 : v % 256 < 256 := Int.emod_lt_of_pos v (by norm_num)
  constructor
  · apply div_nonneg _ (by norm_num)
    exact_mod_cast h0
  · rw [div_le_one (by norm_num)]
    exact_mod_cast (show v % 256 ≤ 255 by omega)

/-- `hexToRgb` written with its three byte extractions exposed. -/
lemma hexToRgb_eq (s : String) :
    hexToRgb s = ⟨((hexBigint s / 65536 % 256 : ℤ) : ℚ) / 255,
                  ((hexBigint s / 256 % 256 : ℤ) : ℚ) / 255,
                  ((hexBigint s % 256 : ℤ) : ℚ) / 255⟩ := rfl

/-- C4, counterexample: `hexToRgb` does not report any error on
malformed input — `"xyz"` (no hex digit: `parseInt` yields `NaN`,
coerced to 0 by the bitwise operators) silently becomes black, and the
too-short `"FFF"` is silently parsed as `0xFFF`; constructing with
such a palette entry reports no configuration error and still starts
the frame loop. -/
theorem C4_counterexample :
    hexToRgb "xyz" = ⟨0, 0, 0⟩ ∧
    hexToRgb "FFF" = ⟨0, 15 / 255, 1⟩ ∧
    (construct { colors := some [ColorSpec.hex "xyz"] } true).errors = [] ∧
    (construct { colors := some [ColorSpec.hex "xyz"] } true).initCalled = true := by
  have h1 : hexBigint "xyz" = 0 := by decide
  have h2 : hexBigint "FFF" = 4095 := by decide
  refine ⟨?_, ?_, rfl, rfl⟩
  · simp only [hexToRgb, h1]
    norm_num
  · simp only [hexToRgb, h2]
    norm_num

/-- C4 (amended): `hexToRgb` never crashes — on every input, malformed
or not, it returns a triplet of channels in `[0, 1]` (unparseable
strings yield `(0, 0, 0)` because `parseInt`'s `NaN` is coerced to 0)
— but it reports no error, and a malformed palette entry is not
surfaced as a configuration error at construction time: the only
error the constructor can report is WebGL unavailability. -/
theorem C4_no_error_reported (s : String) (co : Option ColorSpec)
    (sp am : Option ℚ) (mr : Option Bool) (glA : Bool) :
    (0 ≤ (hexToRgb s).r ∧ (hexToRgb s).r ≤ 1) ∧
    (0 ≤ (hexToRgb s).g ∧ (hexToRgb s).g ≤ 1) ∧
    (0 ≤ (hexToRgb s).b ∧ (hexToRgb s).b ≤ 1) ∧
    (construct ⟨co, some [ColorSpec.hex s], sp, am, mr⟩ glA).errors
      = (if glA then [] else ["WebGL not supported"]) := by
  rw [hexToRgb_eq]
  exact ⟨hexChannel_bounds _, hexChannel_bounds _, hexChannel_bounds _, rfl⟩

/-- C5, counterexample: constructing with an empty palette (`colors`
list of length 0) reports no error, and `init()` — hence the frame
loop — still runs. -/
theorem C5_counterexample :
    (construct { colors := some ([] : List ColorSpec) } true).errors = [] ∧
    (construct { colors := some ([] : List ColorSpec) } true).initCalled = true :=
  ⟨rfl, rfl⟩

/-- C5 (amended): an empty palette is silently accepted, not a
configuration error: no error is reported, initialization runs and
the frame loop starts (whenever a GL context exists), the empty
palette is kept, and the palette-cycling step is the identity on the
cycle state (its guard `palette.length > 1` never fires), so the
engine just renders the static base color. -/
theorem C5_empty_palette_accepted (co : Option ColorSpec) (sp am : Option ℚ)
    (mr : Option Bool) (s : EngineState) :
    (construct ⟨co, some [], sp, am, mr⟩ true).errors = [] ∧
    (construct ⟨co, some [], sp, am, mr⟩ true).initCalled = true ∧
    (construct ⟨co, some [], sp, am, mr⟩ true).palette = some [] ∧
    animateStep [] s = s :=
  ⟨rfl, rfl, rfl, by simp [animateStep]⟩

/-- C9: `hexToRgb("#FF9FFC")` is exactly `(1, 159/255, 252/255)` (so
in particular within `1e-6`), and the leading `#` is irrelevant:
`hexToRgb("5227FF") = hexToRgb("#5227FF")`. -/
theorem C9_hexToRgb_values :
    hexToRgb "#FF9FFC" = ⟨1, 159 / 255, 252 / 255⟩ ∧
    hexToRgb "5227FF" = hexToRgb "#5227FF" := by
  have h1 : hexBigint "#FF9FFC" = 16752636 := by decide
  have h2 : hexBigint "5227FF" = hexBigint "#5227FF" := by decide
  constructor
  · simp only [hexToRgb, h1]
    norm_num
  · simp only [hexToRgb, h2]

/-- C10: explicitly passing `amplitude: 0` yields the default `0.1`
and `speed: 0` yields the default `1.0`, because the constructor
applies defaults with JavaScript `||`, which treats `0` as falsy. -/
theorem C10_zero_options_defaulted (co : Option ColorSpec)
    (cs : Option (List ColorSpec)) (mr : Option Bool) (glA : Bool) :
    (construct ⟨co, cs, some 0, some 0, mr⟩ glA).amplitude = 0.1 ∧
    (construct ⟨co, cs, some 0, some 0, mr⟩ glA).speed = 1 := by
  constructor <;> norm_num [construct, jsOrNum]

/-- With the `mousemove` listener not registered, any sequence of
pointer events leaves the pointer state untouched. -/
lemma runEvents_false (events : List MouseEvent) (p : ℚ × ℚ) :
    runEvents false events p = p := by
  induction events generalizing p with
  | nil => rfl
  | cons e es ih =>
    rw [runEvents, List.foldl_cons]
    exact ih p

/-- C6: with pointer reactivity enabled, an event maps to
`((x - left)/width, 1 - (y - top)/height)`; in particular the surface's
top-left corner maps to `(0, 1)`, the bottom-right corner to `(1, 0)`
and the exact center to `(0.5, 0.5)`. -/
theorem C6_pointer_event_mapping (rect : Rect) (hw : rect.width ≠ 0)
    (hh : rect.height ≠ 0) (e : MouseEvent) (p : ℚ × ℚ) :
    processMouseEvent true e p
      = ((e.clientX - e.rect.left) / e.rect.width,
         1 - (e.clientY - e.rect.top) / e.rect.height) ∧
    mouseMoveHandler rect rect.left rect.top = (0, 1) ∧
    mouseMoveHandler rect (rect.left + rect.width) (rect.top + rect.height)
      = (1, 0) ∧
    mouseMoveHandler rect (rect.left + rect.width / 2)
      (rect.top + rect.height / 2) = (0.5, 0.5) := by
  refine ⟨rfl, ?_, ?_, ?_⟩ <;>
    · simp only [mouseMoveHandler, Prod.mk.injEq]
      constructor <;>
        · field_simp
          try ring

/-- Witness for C6 on the rectangle with corner `(10, 20)`, width 2
and height 4. -/
theorem C6_pointer_event_mapping_witness :
    (⟨10, 20, 2, 4⟩ : Rect).width ≠ 0 ∧ (⟨10, 20, 2, 4⟩ : Rect).height ≠ 0 ∧
    (processMouseEvent true ⟨11, 22, ⟨10, 20, 2, 4⟩⟩ (0.5, 0.5)
        = ((11 - (10 : ℚ)) / 2, 1 - (22 - (20 : ℚ)) / 4) ∧
      mouseMoveHandler ⟨10, 20, 2, 4⟩ 10 20 = (0, 1) ∧
      mouseMoveHandler ⟨10, 20, 2, 4⟩ (10 + 2) (20 + 4) = (1, 0) ∧
      mouseMoveHandler ⟨10, 20, 2, 4⟩ (10 + 2 / 2) (20 + 4 / 2) = (0.5, 0.5)) := by
  refine ⟨by norm_num, by norm_num, ?_⟩
  have h := C6_pointer_event_mapping ⟨10, 20, 2, 4⟩ (by norm_num) (by norm_num)
    ⟨11, 22, ⟨10, 20, 2, 4⟩⟩ (0.5, 0.5)
  exact h

/-- C7: with `mouseReact = false` the constructor registers no
`mousemove` observer, and the pointer state read by every frame stays
at the fixed center `(0.5, 0.5)` for every sequence of pointer
events. -/
theorem C7_pointer_disabled (co : Option ColorSpec) (cs : Option (List ColorSpec))
    (sp am : Option ℚ) (glA : Bool) (events : List MouseEvent) :
    (construct ⟨co, cs, sp, am, some false⟩ glA).mouseReact = false ∧
    (construct ⟨co, cs, sp, am, some false⟩ glA).mouseObserverRegistered = false ∧
    runEvents (construct ⟨co, cs, sp, am, some false⟩ glA).mouseReact events
        (construct ⟨co, cs, sp, am, some false⟩ glA).mousePos = (0.5, 0.5) := by
  refine ⟨rfl, ?_, ?_⟩
  · simp [construct, mouseReactOf]
  · exact runEvents_false events _

/-- Evaluation of the canvas-size coercion on an in-range nonnegative
value: plain truncation (here: floor). -/
lemma canvasDim_of_nonneg (x : ℚ) (h0 : 0 ≤ x) (hlt : x < 4294967296) :
    canvasDim x = (⌊x⌋).toNat := by
  rw [canvasDim, if_pos h0, Int.emod_eq_of_lt (Int.floor_nonneg.mpr h0)]
  exact Int.floor_lt.mpr (by exact_mod_cast hlt)

/-- C8, counterexample: for layout size `(101, 101)` and device pixel
density `1.5`, `resize` produces backing size `(151, 151)` — the
product `151.5` is truncated by the canvas `unsigned long` coercion —
while "rounded to integer pixels" gives `(152, 152)`. -/
theorem C8_counterexample :
    resize 101 101 (3 / 2) ≠ computeBackingSizeSpec 101 101 (3 / 2) := by
  have hc : ((101 : ℕ) : ℚ) * (3 / 2) = 303 / 2 := by norm_num
  have hf : (⌊(303 / 2 : ℚ)⌋ : ℤ) = 151 := by
    rw [Int.floor_eq_iff]
    norm_num
  have hr : round (303 / 2 : ℚ) = 152 := by
    rw [round_eq, Int.floor_eq_iff]
    norm_num
  have h1 : resize 101 101 (3 / 2) = (151, 151) := by
    rw [resize, if_neg (by norm_num : ¬ (3 / 2 : ℚ) = 0)]
    rw [canvasDim_of_nonneg _ (by norm_num) (by norm_num), hc, hf]
    rfl
  have h2 : computeBackingSizeSpec 101 101 (3 / 2) = (152, 152) := by
    rw [computeBackingSizeSpec, hc, hr]
    rfl
  rw [h1, h2]
  decide

/-- C8 (amended): the backing-buffer size computed on resize equals
`layoutSize * devicePixelDensity` per axis TRUNCATED toward zero to
integer pixels (the WebIDL `unsigned long` coercion of the canvas
attributes; for positive density and in-range products this is the
floor, not rounding to nearest); layout size `(300, 150)` with
density 2 yields backing size `(600, 300)` as claimed. -/
theorem C8_resize_truncates (w h : ℕ) (d : ℚ) (hd : 0 < d)
    (hw : (w : ℚ) * d < 4294967296) (hh : (h : ℚ) * d < 4294967296) :
    resize w h d = ((⌊(w : ℚ) * d⌋).toNat, (⌊(h : ℚ) * d⌋).toNat) ∧
    resize 300 150 2 = (600, 300) := by
  constructor
  · rw [resize, if_neg hd.ne']
    rw [canvasDim_of_nonneg _ (mul_nonneg (Nat.cast_nonneg w) hd.le) hw,
      canvasDim_of_nonneg _ (mul_nonneg (Nat.cast_nonneg h) hd.le) hh]
  · rw [resize, if_neg (by norm_num : ¬ (2 : ℚ) = 0)]
    rw [canvasDim_of_nonneg _ (by norm_num) (by norm_num),
      canvasDim_of_nonneg _ (by norm_num) (by norm_num)]
    have hc6 : ((300 : ℕ) : ℚ) * 2 = 600 := by norm_num
    have hc3 : ((150 : ℕ) : ℚ) * 2 = 300 := by norm_num
    have h6 : (⌊(600 : ℚ)⌋ : ℤ) = 600 := by
      rw [Int.floor_eq_iff]
      norm_num
    have h3 : (⌊(300 : ℚ)⌋ : ℤ) = 300 := by
      rw [Int.floor_eq_iff]
      norm_num
    rw [hc6, hc3, h6, h3]
    rfl

/-- Witness for C8 at layout `(300, 150)`, density 2. -/
theorem C8_resize_truncates_witness :
    (0 : ℚ) < 2 ∧ ((300 : ℕ) : ℚ) * 2 < 4294967296 ∧
    ((150 : ℕ) : ℚ) * 2 < 4294967296 ∧
    (resize 300 150 2
        = ((⌊((300 : ℕ) : ℚ) * 2⌋).toNat, (⌊((150 : ℕ) : ℚ) * 2⌋).toNat) ∧
      resize 300 150 2 = (600, 300)) :=
  ⟨by norm_num, by norm_num, by norm_num,
    C8_resize_truncates 300 150 2 (by norm_num) (by norm_num) (by norm_num)⟩

end Iridescence
